import Mathlib

/-!
# Verification of the Consensus paginated-fetch-and-flatten pipeline

Shallow embedding of the core of `api_client.py` and `data_processor.py`:

* `getAllLoop` / `get_all_consensus_data` embed `APIClient.get_all_consensus_data`
  (api_client.py lines 145-183): the cursor-following accumulation loop.
* `get_consensus_data_with_pagination` embeds the transport's response handling
  (api_client.py lines 221-228).
* `flattenRecord` / `processRecords` embed the flattening loop of
  `DataProcessor.process_data` (data_processor.py lines 29-65).
* `cleanDF` embeds `DataProcessor._clean_consensus_data`
  (data_processor.py lines 91-110).
* `create_summary_csv` embeds `DataProcessor.create_summary_csv`
  (data_processor.py lines 123-162).

Python's unbounded `while True` loop is embedded with a fuel parameter: a
result of `none` means the loop did not finish within the given number of
iterations, so `∀ fuel, run fuel = none` states non-termination. Each loop
iteration performs exactly one transport call, so the iteration count
carried alongside the result is the number of pages fetched.
-/

namespace Consensus

/-- Paging metadata of one transport result, as read by the loop.
`nextPage = none` models a `nextPage` key that is absent (Python default `0`
after `paging.get('nextPage', 0)` together with the `is None` test) or JSON
null: every such value makes the `if next_page is None or next_page == 0`
break fire, exactly like `some 0`. A missing `paging` dict is modelled the
same way, since `{}.get('nextPage', 0)` also yields `0`. -/
structure Paging where
  nextPage : Option Int
deriving Repr, DecidableEq

/-- One successful transport result, after the loop's
`response_data.get('items', [])` and `response_data.get('paging', {})`
accesses: a missing `items` key is the same as an empty item list. -/
structure PageData (α : Type) where
  items : List α
  paging : Paging
deriving Repr, DecidableEq

/-- The body of `while True:` in `get_all_consensus_data`
(api_client.py lines 149-180), with `fetch` standing for
`get_consensus_data_with_pagination`; `fetch p = none` is a failed transport
call for page `p`. The `Nat` result component counts transport calls made
(one per iteration). Fuel exhaustion yields `none`: the Python loop would
still be running after that many iterations. -/
def getAllLoop (fetch : Int → Option (PageData α)) :
    Nat → Int → List α → Nat → Option (List α × Nat)
  | 0, _, _, _ => none
  | fuel + 1, page, acc, cnt =>
    match fetch page with
    | none => some (acc, cnt + 1)
    | some pd =>
      if pd.items.isEmpty then
        some (acc, cnt + 1)
      else
        match pd.paging.nextPage with
        | none => some (acc ++ pd.items, cnt + 1)
        | some np =>
          if np = 0 then some (acc ++ pd.items, cnt + 1)
          else if np > 100 then some (acc ++ pd.items, cnt + 1)
          else getAllLoop fetch fuel np (acc ++ pd.items) (cnt + 1)

/-- `get_all_consensus_data` with the page-count instrumentation:
starts at `page = 1` with an empty accumulator. -/
def getAllCount (fetch : Int → Option (PageData α)) (fuel : Nat) :
    Option (List α × Nat) :=
  getAllLoop fetch fuel 1 [] 0

/-- The value `get_all_consensus_data` returns (api_client.py line 183):
the accumulated item list. Note that every `break` path returns the plain
list `all_items`; nothing in the returned value records whether the run
ended normally or on a failed page. -/
def get_all_consensus_data (fetch : Int → Option (PageData α)) (fuel : Nat) :
    Option (List α) :=
  (getAllCount fetch fuel).map Prod.fst

/-- A fetch function serving a fixed finite sequence of pages under their
sequential one-based numbers: page `i` succeeds with `ps[i-1]` for
`1 ≤ i ≤ ps.length` and fails (transport failure) outside that range. -/
def seqFetch (ps : List (PageData α)) (i : Int) : Option (PageData α) :=
  if 1 ≤ i ∧ i ≤ ps.length then
    ps.get? (i - 1).toNat
  else
    none

/-! ## Transport shape handling

A minimal model of the decoded JSON bodies the transport can receive. -/

/-- Decoded JSON value, as far as the transport inspects it. -/
inductive JVal where
  | obj (fields : List (String × JVal))
  | arr (elems : List JVal)
  | str (s : String)
  | num (n : Int)
  | bool (b : Bool)
  | null

/-- Python `data['data']` preceded by `'data' in data`: the value bound to
the first occurrence of the key, if the value is an object holding it. -/
def JVal.lookup : JVal → String → Option JVal
  | .obj fields, k => (fields.find? (fun p => p.1 = k)).map Prod.snd
  | _, _ => none

/-- Response handling of `get_consensus_data_with_pagination`
(api_client.py lines 218-238). The argument is the decoded response body,
`none` standing for the paths where `requests` raises
(connection/HTTP-status error, undecodable JSON body): those are caught and
turned into `None`. On a decoded body the code checks only
`isinstance(data, dict) and 'data' in data` and returns `data['data']`
unexamined; otherwise it logs a warning and returns `None`. -/
def get_consensus_data_with_pagination (resp : Option JVal) : Option JVal :=
  match resp with
  | none => none
  | some body =>
    match body.lookup "data" with
    | some inner => some inner
    | none => none

/-! ## Flattener

Embedding of the per-record expansion loop of `DataProcessor.process_data`
(data_processor.py lines 29-65). Record fields are modelled as
`Option String` (`none` = key absent, defaulted by `record.get(k, '')`),
except `viewTime` whose `record.get('viewTime', 0)` default is numeric. -/

/-- The nested `externalOpportunity` mapping of a raw record. -/
structure ExternalOpportunity where
  externalAccountId : Option String := none
  externalOpportunityId : Option String := none
  externalAccountName : Option String := none
  externalOpportunityName : Option String := none
deriving Repr, DecidableEq

/-- One raw API record, restricted to the keys `process_data` reads. -/
structure RawRecord where
  senddemoUuid : Option String := none
  demoboardName : Option String := none
  organization : Option String := none
  viewTime : Option Int := none
  timeLastView : Option String := none
  externalOpportunity : Option ExternalOpportunity := none
  demoUuids : Option (List String) := none
  demoUuid : Option String := none
deriving Repr, DecidableEq

/-- One flattened output row: the shared demoboard fields plus the
per-row `demoUuids` scalar chosen by the expansion. -/
structure FlatRow where
  senddemoUuid : String
  demoboardName : String
  organization : String
  viewTime : Int
  timeLastView : String
  externalAccountId : String
  externalOpportunityId : String
  externalAccountName : String
  externalOpportunityName : String
  demoUuids : String
deriving Repr, DecidableEq

/-- The shared `demoboard_info` mapping built for a record
(data_processor.py lines 31-46), before the expansion fills `demoUuids`. -/
def baseRow (r : RawRecord) : FlatRow :=
  let ext := r.externalOpportunity.getD {}
  { senddemoUuid := r.senddemoUuid.getD ""
    demoboardName := r.demoboardName.getD ""
    organization := r.organization.getD ""
    viewTime := r.viewTime.getD 0
    timeLastView := r.timeLastView.getD ""
    externalAccountId := ext.externalAccountId.getD ""
    externalOpportunityId := ext.externalOpportunityId.getD ""
    externalAccountName := ext.externalAccountName.getD ""
    externalOpportunityName := ext.externalOpportunityName.getD ""
    demoUuids := "" }

/-- `for i, demo_uuid in enumerate(demo_uuids)` (data_processor.py
lines 52-61): row `i = 0` keeps the base's `senddemoUuid`, every later row
has it forced to the empty string; each row carries its own id. -/
def expandRows (base : FlatRow) : Nat → List String → List FlatRow
  | _, [] => []
  | i, u :: rest =>
    (if i = 0 then { base with demoUuids := u }
     else { base with senddemoUuid := "", demoUuids := u })
      :: expandRows base (i + 1) rest

/-- The record → rows expansion (data_processor.py lines 48-65): a
non-empty `demoUuids` list is expanded one row per id, an empty or absent
list yields a single row using the fallback `demoUuid` value. -/
def flattenRecord (r : RawRecord) : List FlatRow :=
  match r.demoUuids.getD [] with
  | [] => [{ baseRow r with demoUuids := r.demoUuid.getD "" }]
  | u :: rest => expandRows (baseRow r) 0 (u :: rest)

/-- The whole `for record in data` accumulation loop
(data_processor.py lines 29-65). -/
def processRecords (data : List RawRecord) : List FlatRow :=
  data.flatMap flattenRecord

/-! ## DataFrame model, cleaning and summary projection

A pandas DataFrame is modelled as a list of column names plus rows of
cells. A cell is a string, a number, or a null (Python `None` / NaN).
The pandas column-wise operations of `_clean_consensus_data` are modelled
element-wise: `astype(str).str.strip()` only changes string cells here
(the stringification of numbers inside object-dtype columns is not
observable by any property below). -/

/-- One DataFrame cell. `null` covers Python `None` and pandas NaN. -/
inductive Cell where
  | str (s : String)
  | num (n : Int)
  | null
deriving Repr, DecidableEq

/-- Whether a cell is missing, in the sense `dropna` uses. -/
def Cell.isNull : Cell → Bool
  | .null => true
  | _ => false

/-- Column names plus rows of cells, in order. -/
structure DataFrame where
  cols : List String
  rows : List (List Cell)
deriving Repr, DecidableEq

/-- Pandas `df.empty`: true when either axis has length zero. -/
def DataFrame.isEmptyDF (df : DataFrame) : Bool :=
  df.rows.isEmpty || df.cols.isEmpty

/-- The cell of `row` under column name `c` (first occurrence). -/
def cellAt (cols : List String) (row : List Cell) (c : String) : Cell :=
  match cols.findIdx? (fun x => x = c) with
  | some i => row.getD i Cell.null
  | none => Cell.null

/-- Pandas `df[sel]`: the sub-frame of the named columns, in `sel` order. -/
def selectCols (df : DataFrame) (sel : List String) : DataFrame :=
  ⟨sel, df.rows.map (fun r => sel.map (cellAt df.cols r))⟩

/-- `df.replace(['null', 'None', None], '')` on one cell
(data_processor.py line 95). -/
def replaceSentinel : Cell → Cell
  | .null => .str ""
  | .str s => if s = "null" ∨ s = "None" then .str "" else .str s
  | .num n => .num n

/-- Whitespace characters removed by Python's `str.strip()` (restricted
to the common four). -/
def isSpaceChar (c : Char) : Bool :=
  c = ' ' || c = '\t' || c = '\n' || c = '\r'

/-- Surrounding-whitespace trim, the effect of `.str.strip()`. -/
def trimChars (s : String) : String :=
  String.mk (((s.toList.dropWhile isSpaceChar).reverse.dropWhile
    isSpaceChar).reverse)

/-- `astype(str).str.strip()` followed by `.replace('nan', '')` on one
string cell (data_processor.py lines 101-102). -/
def stripCell : Cell → Cell
  | .str s => .str (if trimChars s = "nan" then "" else trimChars s)
  | c => c

/-- Best-effort integer parse, standing for the numeric parser behind
`pd.to_numeric`: an optional minus sign followed by at least one digit. -/
def parseInt? (s : String) : Option Int :=
  let digitsVal : List Char → Option Nat := fun cs =>
    if cs.isEmpty || !cs.all Char.isDigit then none
    else some (cs.foldl (fun a c => a * 10 + (c.toNat - 48)) 0)
  match s.toList with
  | '-' :: rest => (digitsVal rest).map (fun n => -(n : Int))
  | cs => (digitsVal cs).map (fun n => (n : Int))

/-- `pd.to_numeric(col, errors='coerce')` on one cell
(data_processor.py line 108): numbers pass through, parseable strings
become numbers, anything else becomes NaN — never zero. -/
def coerceNumeric : Cell → Cell
  | .num n => .num n
  | .null => .null
  | .str s =>
    match parseInt? s with
    | some n => .num n
    | none => .null

/-- `df[col] = f(df[col])` on one row: apply `f` to the cell at absolute
column index `i`, counting from `j`. -/
def applyAt (f : Cell → Cell) (i : Nat) : Nat → List Cell → List Cell
  | _, [] => []
  | j, c :: rest => (if j = i then f c else c) :: applyAt f i (j + 1) rest

/-- `DataProcessor._clean_consensus_data` (data_processor.py lines 91-110),
stage by stage in source order: drop rows whose every cell is missing,
replace the `'null'`/`'None'`/`None` sentinels, strip string cells (with
the `'nan'` artifact removed), then coerce the `viewTime` column to
numeric if that column is present. -/
def cleanDF (df : DataFrame) : DataFrame :=
  let rows1 := df.rows.filter (fun r => !(r.all Cell.isNull))
  let rows2 := rows1.map (List.map replaceSentinel)
  let rows3 := rows2.map (List.map stripCell)
  match df.cols.findIdx? (fun c => c = "viewTime") with
  | none => ⟨df.cols, rows3⟩
  | some i => ⟨df.cols, rows3.map (applyAt coerceNumeric i 0)⟩

/-- Spec-side description of one cleaned cell (spec §4.3 post-processing):
a field holding the literal `"null"`, the literal `"None"`, or an absent
value is normalized to the empty string; any other string field is trimmed
of surrounding whitespace (the stray `"nan"` artifact counts as absent);
numbers are untouched. -/
def specCleanCell : Cell → Cell
  | .null => .str ""
  | .str s =>
    if s = "null" ∨ s = "None" then .str ""
    else .str (if trimChars s = "nan" then "" else trimChars s)
  | .num n => .num n

/-- Spec-side description of a cleaned `viewTime` cell: after the
normalization above, coerce to a numeric value, mapping un-parseable
values to null rather than to zero. -/
def specViewTimeCell (c : Cell) : Cell :=
  match specCleanCell c with
  | .str s =>
    match parseInt? s with
    | some n => .num n
    | none => .null
  | c' => c'

/-- Spec-side single pass over one row: every field normalized and
trimmed, the `viewTime` column (absolute index `vt`, counting from `j`)
additionally coerced to numeric. -/
def cleanSpecRowFrom (vt : Option Nat) : Nat → List Cell → List Cell
  | _, [] => []
  | j, c :: rest =>
    (if vt = some j then specViewTimeCell c else specCleanCell c)
      :: cleanSpecRowFrom vt (j + 1) rest

/-- Spec-side description of the whole post-processing step (§4.3): drop
the rows that are entirely empty (no field present at all), then rewrite
each surviving row cell-wise, preserving column set, row order and the
order of cells within a row. -/
def cleanSpecDF (df : DataFrame) : DataFrame :=
  ⟨df.cols,
    (df.rows.filter (fun r => !(r.all Cell.isNull))).map
      (cleanSpecRowFrom (df.cols.findIdx? (fun c => c = "viewTime")) 0)⟩

/-- The six source columns of the summary view
(data_processor.py lines 128-135), in source order. -/
def summary_columns : List String :=
  ["senddemoUuid", "demoUuids", "externalAccountId",
   "externalOpportunityId", "viewTime", "timeLastView"]

/-- The §6 rename table (data_processor.py lines 150-157); names outside
the table are left unchanged, as `DataFrame.rename` does. -/
def column_mapping (c : String) : String :=
  if c = "senddemoUuid" then "Demoboard_ID"
  else if c = "demoUuids" then "Demo_IDs"
  else if c = "externalAccountId" then "Salesforce_External_AccountId"
  else if c = "externalOpportunityId" then "Salesforce_External_OppId"
  else if c = "viewTime" then "View_Time_Seconds"
  else if c = "timeLastView" then "Demoboard_View_Date"
  else c

/-- `DataProcessor.create_summary_csv` (data_processor.py lines 123-162):
an empty frame yields a fresh empty frame; otherwise the summary columns
present in the frame are selected (in `summary_columns` order) and
renamed; if none is present the input is returned unchanged. -/
def create_summary_csv (df : DataFrame) : DataFrame :=
  if df.isEmptyDF then ⟨[], []⟩
  else
    let available := summary_columns.filter (fun c => df.cols.contains c)
    if available.isEmpty then df
    else
      let s := selectCols df available
      ⟨s.cols.map column_mapping, s.rows⟩

/-! ## Run descriptions and concrete fixtures -/

/-- The pages a run starting at page `p` walks through before its final
step: each page is served by `fetch` under its sequential number, has at
least one item, and hands the cursor to the next number, which the
`page > 100` guard lets through. -/
def chainedFrom (fetch : Int → Option (PageData α)) : Int → List (PageData α) → Prop
  | _, [] => True
  | p, d :: rest =>
    fetch p = some d ∧ d.items ≠ [] ∧ d.paging.nextPage = some (p + 1) ∧
      p + 1 ≤ 100 ∧ chainedFrom fetch (p + 1) rest

/-- A cyclic cursor: every page succeeds, carries one item, and points
the cursor back at page 1. -/
def cyclicFetch : Int → Option (PageData String) :=
  fun _ => some ⟨["item"], ⟨some 1⟩⟩

/-- Pages 1 and 2 succeed with one item each, the transport call for
page 3 fails. -/
def fetchFailAt3 : Int → Option (PageData Nat) := fun i =>
  if i = 1 then some ⟨[10], ⟨some 2⟩⟩
  else if i = 2 then some ⟨[20], ⟨some 3⟩⟩
  else none

/-- A fully successful two-page run with the same items: page 2 reports
`nextPage = 0`, the natural end of data. -/
def fetchOk2 : Int → Option (PageData Nat) := fun i =>
  if i = 1 then some ⟨[10], ⟨some 2⟩⟩
  else if i = 2 then some ⟨[20], ⟨some 0⟩⟩
  else none

/-- 101 sequential pages: page `i` carries the single item `i` and points
at page `i + 1`, except page 101 which reports `nextPage = 0`. -/
def p101 : List (PageData Nat) :=
  (List.range 101).map
    (fun j => ⟨[j + 1], ⟨some (if j = 100 then 0 else (j : Int) + 2)⟩⟩)

/-- A record with a non-empty `demoUuids` list but no `senddemoUuid`
key at all. -/
def c3rec : RawRecord := { demoUuids := some ["d1", "d2"] }

/-- A record with no `demoUuids` key and the fallback id `"f"`. -/
def c4rec : RawRecord := { senddemoUuid := some "A1", demoUuid := some "f" }

/-- The spec's §8 scenario record: `senddemoUuid = "A1"` with two ids. -/
def c3scen : RawRecord := { senddemoUuid := some "A1", demoUuids := some ["d1", "d2"] }

/-- A decoded response body whose `data` value contains neither `items`
nor `paging`. -/
def c7body : JVal := .obj [("data", .obj [("foo", .null)])]

/-! ## Paginator lemmas -/

/-- Under the cyclic cursor the loop body always recurses: no iteration
count is enough for it to return. -/
theorem getAllLoop_cyclic (fuel : Nat) :
    ∀ (page : Int) (acc : List String) (cnt : Nat),
      getAllLoop cyclicFetch fuel page acc cnt = none := by
  induction fuel with
  | zero => intro page acc cnt; rfl
  | succ n ih =>
    intro page acc cnt
    simp only [getAllLoop, cyclicFetch]
    norm_num
    exact ih 1 (acc ++ ["item"]) (cnt + 1)

/-- Walking a chained prefix of pages: each page is consumed in one
iteration, its items are appended, and the loop moves to the next page
number, without stopping. -/
theorem getAllLoop_chain (fetch : Int → Option (PageData α)) (ds : List (PageData α)) :
    ∀ (p : Int) (acc : List α) (cnt fuel : Nat), 1 ≤ p → chainedFrom fetch p ds →
      getAllLoop fetch (ds.length + fuel) p acc cnt =
        getAllLoop fetch fuel (p + ds.length)
          (acc ++ ds.flatMap (fun d => d.items)) (cnt + ds.length) := by
  induction ds with
  | nil => intro p acc cnt fuel _ _; simp
  | cons d rest ih =>
    intro p acc cnt fuel hp hch
    obtain ⟨hf, hne, hnp, hb, hrest⟩ := hch
    obtain ⟨u, us, hitems⟩ := List.exists_cons_of_ne_nil hne
    have hlen : (d :: rest).length + fuel = (rest.length + fuel) + 1 := by
      simp [List.length_cons]; omega
    rw [hlen]
    simp only [getAllLoop, hf, hitems, hnp, List.isEmpty_cons]
    rw [if_neg (by omega : ¬ p + 1 = 0), if_neg (by omega : ¬ p + 1 > 100)]
    rw [← hitems, ih (p + 1) (acc ++ d.items) (cnt + 1) fuel (by omega) hrest]
    have hpage : p + 1 + (rest.length : Int) = p + ((d :: rest).length : Nat) := by
      push_cast [List.length_cons]; ring
    have hacc : acc ++ d.items ++ rest.flatMap (fun d => d.items) =
        acc ++ (d :: rest).flatMap (fun d => d.items) := by
      simp [List.flatMap_cons]
    have hcnt : cnt + 1 + rest.length = cnt + (d :: rest).length := by
      simp [List.length_cons]; omega
    rw [hpage, hacc, hcnt]
    simp

/-- C1: the claim says the paginator stops after exactly 100 page
advances on every cyclic cursor. The code's guard is `if page > 100` on
the server-returned page number, so a cursor that keeps answering
`nextPage = 1` with a non-empty page never trips it: for every iteration
budget the loop is still running, i.e. `get_all_consensus_data` never
returns. This contradicts both the claim and the source's own comment
`Safety check to prevent infinite loops`. -/
theorem claim_C1_cyclic_never_stops (fuel : Nat) :
    get_all_consensus_data cyclicFetch fuel = none := by
  unfold get_all_consensus_data getAllCount
  rw [getAllLoop_cyclic fuel 1 [] 0]
  rfl

/-- C2 (amended): when pages `1..k-1` succeed with non-empty items and
chained cursors and the transport call for page `k` fails, the paginator
stops at page `k` after exactly `k` transport calls and returns the plain
concatenation of the items of pages `1..k-1`. Unlike the original claim,
the returned value carries no partial-failure flag (see the
counterexample), and the run only reaches the failing page when
`k ≤ 100` (encoded in `chainedFrom`). -/
theorem claim_C2_amended (fetch : Int → Option (PageData α))
    (init : List (PageData α)) (extra : Nat)
    (hchain : chainedFrom fetch 1 init)
    (hfail : fetch (1 + (init.length : Int)) = none) :
    getAllCount fetch (init.length + (extra + 1)) =
      some (init.flatMap (fun d => d.items), init.length + 1) := by
  unfold getAllCount
  rw [getAllLoop_chain fetch init 1 [] 0 (extra + 1) (by norm_num) hchain]
  simp only [getAllLoop, hfail, List.nil_append, Nat.zero_add]

/-- C2 counterexample: a run that fails on page 3 after accumulating
pages 1 and 2 returns a value literally equal to that of a fully
successful two-page run over the same items. The return value of
`get_all_consensus_data` is a plain item list on every exit path, so no
partial-failure flag exists for callers to branch on. -/
theorem claim_C2_counterexample :
    fetchFailAt3 3 = none ∧
    get_all_consensus_data fetchFailAt3 10 = some [10, 20] ∧
    get_all_consensus_data fetchOk2 10 = some [10, 20] := by
  refine ⟨by decide, by decide, by decide⟩

/-- C2 witness: the spec's own scenario, pages 1 and 2 succeed with one
item each and the transport call for page 3 fails; the paginator makes
3 calls and returns the two accumulated items. -/
theorem claim_C2_witness :
    getAllCount fetchFailAt3 (2 + (0 + 1)) = some ([10, 20], 3) := by
  have h := claim_C2_amended fetchFailAt3
    [⟨[10], ⟨some 2⟩⟩, ⟨[20], ⟨some 3⟩⟩] 0
    ⟨by decide, by decide, by decide, by decide,
     by decide, by decide, by decide, by decide, trivial⟩
    (by decide)
  exact h.trans (by decide)

/-- C5 (amended): for a sequence of successful pages `1..k` that each
carry at least one item, whose cursors chain `1 → 2 → ... → k`, and whose
page `k` is the first to report `nextPage = 0` (or an absent `nextPage`),
the paginator stops after exactly `k` transport calls with the
concatenation of all `k` pages' items in order — provided `k ≤ 100`
(encoded in `chainedFrom`; the counterexample shows the safety bound
overrides the claim at `k = 101`). Here `k = init.length + 1`. -/
theorem claim_C5_amended (fetch : Int → Option (PageData α))
    (init : List (PageData α)) (last : PageData α) (extra : Nat)
    (hchain : chainedFrom fetch 1 init)
    (hlast : fetch (1 + (init.length : Int)) = some last)
    (hne : last.items ≠ [])
    (hstop : last.paging.nextPage = none ∨ last.paging.nextPage = some 0) :
    getAllCount fetch (init.length + (extra + 1)) =
      some (init.flatMap (fun d => d.items) ++ last.items, init.length + 1) := by
  unfold getAllCount
  rw [getAllLoop_chain fetch init 1 [] 0 (extra + 1) (by norm_num) hchain]
  obtain ⟨u, us, hitems⟩ := List.exists_cons_of_ne_nil hne
  simp only [getAllLoop, hlast, hitems, List.isEmpty_cons]
  rcases hstop with h0 | h0 <;>
    simp only [h0, ← hitems, List.nil_append, Nat.zero_add] <;> simp

set_option maxRecDepth 8000 in
/-- C5 counterexample: 101 sequential single-item pages whose page 101 is
the first to report `nextPage = 0`. The claim predicts 101 fetched pages
and 101 items; the code's `page > 100` guard fires after the cursor hands
over page 101, so only 100 pages are fetched and the run returns the
first 100 items. -/
theorem claim_C5_counterexample :
    p101.length = 101 ∧
    getAllCount (seqFetch p101) 300 =
      some ((List.range 100).map (fun j => j + 1), 100) ∧
    getAllCount (seqFetch p101) 300 ≠
      some ((List.range 101).map (fun j => j + 1), 101) := by
  refine ⟨by decide, by decide, by decide⟩

/-- C5 witness: three chained pages with items `[1]`, `[2]`, `[3]` where
page 3 reports `nextPage = 0`: the paginator makes exactly 3 calls and
returns `[1, 2, 3]`. -/
theorem claim_C5_witness :
    getAllCount (seqFetch [⟨[1], ⟨some 2⟩⟩, ⟨[2], ⟨some 3⟩⟩, ⟨[3], ⟨some 0⟩⟩])
      (2 + (0 + 1)) = some ([1, 2, 3], 3) := by
  have h := claim_C5_amended
    (seqFetch [⟨[1], ⟨some 2⟩⟩, ⟨[2], ⟨some 3⟩⟩, ⟨[3], ⟨some 0⟩⟩])
    [⟨[1], ⟨some 2⟩⟩, ⟨[2], ⟨some 3⟩⟩] ⟨[3], ⟨some 0⟩⟩ 0
    ⟨by decide, by decide, by decide, by decide,
     by decide, by decide, by decide, by decide, trivial⟩
    (by decide) (by decide) (Or.inr (by decide))
  exact h.trans (by decide)

/-- C6: when the run reaches a successful page whose item list is empty
(after `k - 1` chained non-empty pages), the paginator stops there —
whatever `nextPage` the empty page reports, including a positive one —
and returns only the items accumulated from the earlier pages, having
made exactly `k` transport calls. -/
theorem claim_C6_empty_page_stops (fetch : Int → Option (PageData α))
    (init : List (PageData α)) (last : PageData α) (extra : Nat)
    (hchain : chainedFrom fetch 1 init)
    (hlast : fetch (1 + (init.length : Int)) = some last)
    (hempty : last.items = []) :
    getAllCount fetch (init.length + (extra + 1)) =
      some (init.flatMap (fun d => d.items), init.length + 1) := by
  unfold getAllCount
  rw [getAllLoop_chain fetch init 1 [] 0 (extra + 1) (by norm_num) hchain]
  simp only [getAllLoop, hlast, hempty, List.isEmpty_nil, List.nil_append,
    Nat.zero_add]
  simp

/-- C6 witness: the spec's scenario, an empty item list on page 1 with
`nextPage = 2`: the paginator returns zero items after a single call,
ignoring the cursor. -/
theorem claim_C6_witness :
    getAllCount (fun _ => some (⟨[], ⟨some 2⟩⟩ : PageData Nat)) (0 + (0 + 1)) =
      some ([], 1) := by
  have h := claim_C6_empty_page_stops
    (fun _ => some (⟨[], ⟨some 2⟩⟩ : PageData Nat)) [] ⟨[], ⟨some 2⟩⟩ 0
    trivial (by decide) (by decide)
  exact h.trans (by decide)

/-! ## Flattener lemmas -/

/-- The expansion emits one row per id. -/
theorem expandRows_length (base : FlatRow) :
    ∀ (i : Nat) (l : List String), (expandRows base i l).length = l.length := by
  intro i l
  induction l generalizing i with
  | nil => rfl
  | cons u rest ih => simp only [expandRows, List.length_cons, ih]

/-- Each expanded row carries its own id, in list order. -/
theorem expandRows_map_demoUuids (base : FlatRow) :
    ∀ (i : Nat) (l : List String),
      (expandRows base i l).map FlatRow.demoUuids = l := by
  intro i l
  induction l generalizing i with
  | nil => rfl
  | cons u rest ih =>
    by_cases h : i = 0 <;> simp [expandRows, h, ih]

/-- From index 1 on, every expanded row has an empty `senddemoUuid`. -/
theorem expandRows_map_send_pos (base : FlatRow) :
    ∀ (i : Nat) (l : List String), 1 ≤ i →
      (expandRows base i l).map FlatRow.senddemoUuid =
        List.replicate l.length "" := by
  intro i l
  induction l generalizing i with
  | nil => intro _; rfl
  | cons u rest ih =>
    intro hi
    have h0 : ¬ i = 0 := by omega
    simp [expandRows, h0, List.replicate_succ, ih (i + 1) (by omega)]

/-- C3 (amended): a record whose `demoUuids` list is the non-empty `ids`
is flattened into exactly `ids.length` rows carrying the ids in order;
the first row's `senddemoUuid` is the record's own `senddemoUuid` value
(defaulted to the empty string when the key is absent) and every row with
index above 0 has `senddemoUuid` equal to the empty string. The original
claim's `senddemoUuid is non-empty on exactly the first row` fails when
the record itself has no (or an empty) `senddemoUuid` — see the
counterexample. -/
theorem claim_C3_amended (r : RawRecord) (ids : List String)
    (h1 : r.demoUuids = some ids) (h2 : ids ≠ []) :
    (flattenRecord r).length = ids.length ∧
    (flattenRecord r).map FlatRow.demoUuids = ids ∧
    (flattenRecord r).map FlatRow.senddemoUuid =
      (r.senddemoUuid.getD "") :: List.replicate (ids.length - 1) "" := by
  obtain ⟨u, us, hids⟩ := List.exists_cons_of_ne_nil h2
  have hflat : flattenRecord r = expandRows (baseRow r) 0 (u :: us) := by
    unfold flattenRecord
    rw [h1, hids]
    rfl
  subst hids
  refine ⟨?_, ?_, ?_⟩
  · rw [hflat, expandRows_length]
  · rw [hflat, expandRows_map_demoUuids]
  · rw [hflat]
    simp only [expandRows, List.map_cons,
      expandRows_map_send_pos (baseRow r) 1 us (by omega)]
    simp [baseRow]

/-- C3 counterexample: the record `c3rec` has a non-empty two-element
`demoUuids` but no `senddemoUuid` key, so the flattening emits two rows
whose `senddemoUuid` is the empty string on both — in particular it is
not non-empty on the first row, contrary to the claim. -/
theorem claim_C3_counterexample :
    c3rec.demoUuids = some ["d1", "d2"] ∧
    (flattenRecord c3rec).length = 2 ∧
    (flattenRecord c3rec).map FlatRow.senddemoUuid = ["", ""] := by
  refine ⟨by decide, by decide, by decide⟩

/-- C3 witness: a record with `senddemoUuid = "A1"` and two ids is
expanded to two rows `("A1", "d1")` and `("", "d2")`, the spec's §8
scenario. -/
theorem claim_C3_witness :
    (flattenRecord c3scen).length = 2 ∧
    (flattenRecord c3scen).map FlatRow.demoUuids = ["d1", "d2"] ∧
    (flattenRecord c3scen).map FlatRow.senddemoUuid = ["A1", ""] := by
  have h := claim_C3_amended c3scen ["d1", "d2"] (by decide) (by decide)
  exact ⟨h.1, h.2.1, h.2.2.trans (by decide)⟩

/-- C4: a record whose `demoUuids` key is absent or holds the empty list
is flattened into exactly one row whose per-row id is the record's
fallback `demoUuid` value (the empty string when that key is absent too);
and every record, whatever its shape, yields at least one row. -/
theorem claim_C4_fallback_single_row (r : RawRecord) :
    ((r.demoUuids = none ∨ r.demoUuids = some []) →
      (flattenRecord r).length = 1 ∧
      (flattenRecord r).map FlatRow.demoUuids = [r.demoUuid.getD ""]) ∧
    1 ≤ (flattenRecord r).length := by
  constructor
  · intro h
    have hempty : r.demoUuids.getD [] = [] := by
      rcases h with h | h <;> rw [h] <;> rfl
    unfold flattenRecord
    rw [hempty]
    exact ⟨rfl, rfl⟩
  · unfold flattenRecord
    cases hids : r.demoUuids.getD [] with
    | nil => simp
    | cons u us => rw [expandRows_length]; simp

/-- C4 witness: the record `c4rec` has no `demoUuids` key and fallback id
`"f"`: one row is emitted and its id field is `"f"`. -/
theorem claim_C4_witness :
    (flattenRecord c4rec).length = 1 ∧
    (flattenRecord c4rec).map FlatRow.demoUuids = ["f"] ∧
    1 ≤ (flattenRecord c4rec).length := by
  have h := claim_C4_fallback_single_row c4rec
  have h1 := h.1 (Or.inl (by decide))
  exact ⟨h1.1, h1.2.trans (by decide), h.2⟩

/-! ## Transport shape theorems -/

/-- C7 (amended): the transport returns a success value exactly when the
network call produced a decoded body that is a mapping containing the key
`data`; the value under `data` is then returned without any validation of
`items` or `paging` (every failure path is a returned `none`, no
exception crosses the boundary). The original claim — that a body whose
`data` lacks `items`/`paging` is treated as a failure — is refuted by the
counterexample. -/
theorem claim_C7_amended (resp : Option JVal) :
    ((get_consensus_data_with_pagination resp).isSome = true ↔
      ∃ fields, resp = some (JVal.obj fields) ∧
        "data" ∈ fields.map Prod.fst) := by
  cases resp with
  | none => simp [get_consensus_data_with_pagination]
  | some body =>
    cases body with
    | obj fields =>
      have hmatch :
          (get_consensus_data_with_pagination (some (JVal.obj fields))).isSome
            = (fields.find? (fun p => p.1 = "data")).isSome := by
        simp only [get_consensus_data_with_pagination, JVal.lookup]
        cases fields.find? (fun p => p.1 = "data") <;> rfl
      rw [hmatch]
      constructor
      · intro h
        obtain ⟨p, hp, hkey⟩ := List.find?_isSome.mp h
        exact ⟨fields, rfl,
          List.mem_map.mpr ⟨p, hp, by simpa using hkey⟩⟩
      · rintro ⟨fields', hf, hmem⟩
        have hff : fields = fields' := by
          injection hf with h
          injection h
        subst hff
        obtain ⟨p, hp, hfst⟩ := List.mem_map.mp hmem
        exact List.find?_isSome.mpr ⟨p, hp, by simpa using hfst⟩
    | arr elems => simp [get_consensus_data_with_pagination, JVal.lookup]
    | str s => simp [get_consensus_data_with_pagination, JVal.lookup]
    | num n => simp [get_consensus_data_with_pagination, JVal.lookup]
    | bool b => simp [get_consensus_data_with_pagination, JVal.lookup]
    | null => simp [get_consensus_data_with_pagination, JVal.lookup]

/-- C7 counterexample: the decoded body `{"data": {"foo": null}}` has a
`data` mapping with neither `items` nor `paging`, yet the transport
returns it as a success value instead of a failure. -/
theorem claim_C7_counterexample :
    get_consensus_data_with_pagination (some c7body) =
      some (JVal.obj [("foo", JVal.null)]) ∧
    (get_consensus_data_with_pagination (some c7body)).isSome = true := by
  exact ⟨rfl, rfl⟩

/-! ## Summary projection theorems -/

/-- C8 (amended): on a frame with at least one row and column, if all 6
summary source columns are present then the output has exactly the 6
renamed columns in the §6 order, with each row projected onto those
columns in order and the row list kept 1:1 (no deduplication); and if
none of the 6 source columns is present the input is returned unchanged.
The original claim fails only on frames with an empty axis, where the
`df.empty` guard returns a fresh empty frame instead of the input — see
the counterexample. -/
theorem claim_C8_amended (df : DataFrame)
    (hrows : df.rows ≠ []) (hcols : df.cols ≠ []) :
    ((∀ c ∈ summary_columns, df.cols.contains c = true) →
      create_summary_csv df =
        ⟨["Demoboard_ID", "Demo_IDs", "Salesforce_External_AccountId",
          "Salesforce_External_OppId", "View_Time_Seconds",
          "Demoboard_View_Date"],
         df.rows.map (fun r => summary_columns.map (cellAt df.cols r))⟩) ∧
    ((∀ c ∈ summary_columns, df.cols.contains c = false) →
      create_summary_csv df = df) := by
  have hne : df.isEmptyDF = false := by
    simp [DataFrame.isEmptyDF, List.isEmpty_iff, hrows, hcols]
  constructor
  · intro hall
    have havail : summary_columns.filter (fun c => df.cols.contains c) =
        summary_columns :=
      List.filter_eq_self.mpr (by simpa using hall)
    simp only [create_summary_csv, hne, Bool.false_eq_true, if_false,
      havail, selectCols]
    rfl
  · intro hnone
    have havail : summary_columns.filter (fun c => df.cols.contains c) = [] :=
      List.filter_eq_nil_iff.mpr (by simpa using hnone)
    simp only [create_summary_csv, hne, Bool.false_eq_true, if_false, havail,
      List.isEmpty_nil, if_true]

/-- C8 counterexample: a frame with the single column `foo` and no rows
contains none of the 6 source columns, but `create_summary_csv` returns a
fresh empty frame (losing the column) rather than the input unchanged. -/
theorem claim_C8_counterexample :
    (∀ c ∈ summary_columns, (DataFrame.mk ["foo"] []).cols.contains c = false) ∧
    create_summary_csv (DataFrame.mk ["foo"] []) = DataFrame.mk [] [] ∧
    create_summary_csv (DataFrame.mk ["foo"] []) ≠ DataFrame.mk ["foo"] [] := by
  refine ⟨by decide, by decide, by decide⟩

/-- C8 witness: a one-row frame holding all 6 source columns plus an
extra one is projected onto exactly the renamed 6 columns in §6 order,
and a one-row frame with only a foreign column is returned unchanged. -/
theorem claim_C8_witness :
    create_summary_csv
      (DataFrame.mk
        ["extra", "timeLastView", "senddemoUuid", "demoUuids",
         "externalAccountId", "externalOpportunityId", "viewTime"]
        [[Cell.str "e", Cell.str "t", Cell.str "s", Cell.str "d",
          Cell.str "a", Cell.str "o", Cell.num 5]]) =
      DataFrame.mk
        ["Demoboard_ID", "Demo_IDs", "Salesforce_External_AccountId",
         "Salesforce_External_OppId", "View_Time_Seconds",
         "Demoboard_View_Date"]
        [[Cell.str "s", Cell.str "d", Cell.str "a", Cell.str "o",
          Cell.num 5, Cell.str "t"]] ∧
    create_summary_csv (DataFrame.mk ["foo"] [[Cell.str "x"]]) =
      DataFrame.mk ["foo"] [[Cell.str "x"]] := by
  constructor
  · have h := (claim_C8_amended
      (DataFrame.mk
        ["extra", "timeLastView", "senddemoUuid", "demoUuids",
         "externalAccountId", "externalOpportunityId", "viewTime"]
        [[Cell.str "e", Cell.str "t", Cell.str "s", Cell.str "d",
          Cell.str "a", Cell.str "o", Cell.num 5]])
      (by decide) (by decide)).1 (by decide)
    exact h.trans (by decide)
  · exact (claim_C8_amended (DataFrame.mk ["foo"] [[Cell.str "x"]])
      (by decide) (by decide)).2 (by decide)

/-- C10 counterexample: the frame with columns `senddemoUuid` and
`other` but no rows holds at least one but not all of the 6 summary
source columns, so it satisfies the claim's premise; yet `df.empty` is
true for it, so `create_summary_csv` returns a fresh empty frame — not
the claimed partial projection `⟨[Demoboard_ID], []⟩` with the present
column renamed. -/
theorem claim_C10_counterexample :
    (∃ c ∈ summary_columns,
      (DataFrame.mk ["senddemoUuid", "other"] []).cols.contains c = true) ∧
    (∃ c ∈ summary_columns,
      (DataFrame.mk ["senddemoUuid", "other"] []).cols.contains c = false) ∧
    create_summary_csv (DataFrame.mk ["senddemoUuid", "other"] []) =
      DataFrame.mk [] [] ∧
    create_summary_csv (DataFrame.mk ["senddemoUuid", "other"] []) ≠
      DataFrame.mk ["Demoboard_ID"] [] := by
  refine ⟨⟨"senddemoUuid", by decide, by decide⟩,
    ⟨"demoUuids", by decide, by decide⟩, by decide, by decide⟩

/-- C10 (amended): on a frame with at least one row that holds at least
one but not all of the 6 summary source columns, `create_summary_csv`
silently projects onto exactly the present source columns (in
`summary_columns` order), renames each via the §6 table, and keeps the
rows 1:1 in order; the missing columns are simply absent from the output
and the degenerate return-input-unchanged branch is not taken. The
original claim's unqualified version fails on zero-row frames, where the
`df.empty` guard returns a fresh empty frame instead — see the
counterexample. -/
theorem claim_C10_partial_projection (df : DataFrame)
    (hrows : df.rows ≠ [])
    (hsome : ∃ c ∈ summary_columns, df.cols.contains c = true)
    (_hnotall : ∃ c ∈ summary_columns, df.cols.contains c = false) :
    create_summary_csv df =
      ⟨(summary_columns.filter (fun c => df.cols.contains c)).map
          column_mapping,
        df.rows.map (fun r =>
          (summary_columns.filter (fun c => df.cols.contains c)).map
            (cellAt df.cols r))⟩ := by
  obtain ⟨c0, hc0mem, hc0⟩ := hsome
  have hcols : df.cols ≠ [] := by
    intro h
    rw [h] at hc0
    simp [List.contains] at hc0
  have hne : df.isEmptyDF = false := by
    simp [DataFrame.isEmptyDF, List.isEmpty_iff, hrows, hcols]
  have havail : (summary_columns.filter (fun c => df.cols.contains c)).isEmpty =
      false := by
    rcases h : (summary_columns.filter (fun c => df.cols.contains c)) with _ | _
    · exact absurd (List.mem_filter.mpr ⟨hc0mem, hc0⟩) (by simp [h])
    · rfl
  simp only [create_summary_csv, hne, Bool.false_eq_true, if_false, havail,
    selectCols]

/-- C10 witness: a one-row frame with `senddemoUuid` and a foreign column
is projected onto the single renamed column `Demoboard_ID`. -/
theorem claim_C10_witness :
    create_summary_csv (DataFrame.mk ["senddemoUuid", "other"]
        [[Cell.str "s", Cell.str "o"]]) =
      DataFrame.mk ["Demoboard_ID"] [[Cell.str "s"]] := by
  have h := claim_C10_partial_projection
    (DataFrame.mk ["senddemoUuid", "other"] [[Cell.str "s", Cell.str "o"]])
    (by decide) ⟨"senddemoUuid", by decide, by decide⟩
    ⟨"demoUuids", by decide, by decide⟩
  exact h.trans (by decide)

/-! ## Cleaning theorems -/

/-- The source's replace-then-strip stages act on one cell exactly as the
spec-side normalization does. -/
theorem stripCell_replaceSentinel (c : Cell) :
    stripCell (replaceSentinel c) = specCleanCell c := by
  cases c with
  | null => decide
  | num n => rfl
  | str s =>
    by_cases hs : s = "null" ∨ s = "None"
    · simp only [replaceSentinel, specCleanCell, if_pos hs]
      decide
    · simp only [replaceSentinel, specCleanCell, if_neg hs]
      rfl

/-- The spec-side `viewTime` cell is the numeric coercion of the
spec-side normalized cell. -/
theorem specViewTimeCell_eq (c : Cell) :
    specViewTimeCell c = coerceNumeric (specCleanCell c) := by
  unfold specViewTimeCell
  cases h : specCleanCell c with
  | str s => rfl
  | num n => rfl
  | null => rfl

/-- Without a `viewTime` column the spec-side row pass is the source's
replace stage followed by the strip stage. -/
theorem cleanSpecRowFrom_none (r : List Cell) :
    ∀ j : Nat, cleanSpecRowFrom none j r =
      (r.map replaceSentinel).map stripCell := by
  induction r with
  | nil => intro j; rfl
  | cons c rest ih =>
    intro j
    simp only [cleanSpecRowFrom, List.map_cons, ih (j + 1),
      stripCell_replaceSentinel]
    simp

/-- With a `viewTime` column at absolute index `i` the spec-side row pass
is the source's replace and strip stages followed by the numeric
assignment to that column. -/
theorem cleanSpecRowFrom_some (i : Nat) (r : List Cell) :
    ∀ j : Nat, cleanSpecRowFrom (some i) j r =
      applyAt coerceNumeric i j ((r.map replaceSentinel).map stripCell) := by
  induction r with
  | nil => intro j; rfl
  | cons c rest ih =>
    intro j
    simp only [cleanSpecRowFrom, List.map_cons, applyAt, ih (j + 1),
      stripCell_replaceSentinel]
    by_cases h : j = i
    · subst h
      simp [specViewTimeCell_eq]
    · have hne2 : ¬ ((some i : Option Nat) = some j) := by
        simp only [Option.some.injEq]
        exact fun hij => h hij.symm
      rw [if_neg hne2, if_neg h]

/-- C9: the post-processing over the full row set behaves exactly as the
claim describes, as a single pass: rows that are entirely empty across
all fields (every cell absent) are dropped; in every surviving row each
field holding the literal `"null"`, the literal `"None"`, or an absent
value is normalized to the empty string and every string field is
trimmed of surrounding whitespace; and the `viewTime` column is coerced
to a numeric type with un-parseable values mapped to an absent numeric,
never to zero. Columns, row order and in-row order are preserved. -/
theorem claim_C9_clean_refines_spec (df : DataFrame) :
    cleanDF df = cleanSpecDF df := by
  unfold cleanDF cleanSpecDF
  cases hidx : df.cols.findIdx? (fun c => c = "viewTime") with
  | none =>
    have hfun : cleanSpecRowFrom none 0 =
        fun r : List Cell => (r.map replaceSentinel).map stripCell :=
      funext (fun r => cleanSpecRowFrom_none r 0)
    simp [hfun, List.map_map, Function.comp]
  | some i =>
    have hfun : cleanSpecRowFrom (some i) 0 =
        fun r : List Cell =>
          applyAt coerceNumeric i 0 ((r.map replaceSentinel).map stripCell) :=
      funext (fun r => cleanSpecRowFrom_some i r 0)
    simp [hfun, List.map_map, Function.comp]

end Consensus
